import Mathlib

/-!
Verification of the narracao_ia service (src/narrador_app.py) against its
natural-language specification.

The repository is a single-file Flask service: `POST /api/generate-audio`
receives `{text, voice, model?}`, calls the Google Gemini TTS API once and
returns the audio bytes; `GET /` and `GET /health` are liveness probes.
We embed the request handlers shallowly: the environment credential, the
parsed JSON body and the (single) upstream call outcome are explicit
parameters, HTTP responses are a concrete structure, and Python exceptions
are an explicit `Except` channel caught at the request boundary exactly
where the source's `try/except` blocks sit.

The PCM-to-WAV encoder and the MIME descriptor parser described by the
specification are not part of src/ (src/ holds only the Flask revision and
an SDK syntax probe); they are modelled from the specification's own field
lists, as marked on their definitions.
-/

/-! ## Byte-level helpers -/

/-- Little-endian encoding of a 2-byte unsigned integer (value taken mod 2^16). -/
def le16 (n : Nat) : List Nat := [n % 256, n / 256 % 256]

/-- Little-endian encoding of a 4-byte unsigned integer (value taken mod 2^32). -/
def le32 (n : Nat) : List Nat :=
  [n % 256, n / 256 % 256, n / 65536 % 256, n / 16777216 % 256]

/-! ## Audio format parameters and the MIME descriptor parser -/

/-- Audio format parameters with the specification's defaults:
16 bits per sample, 24000 Hz, mono. -/
structure AudioFormatParameters where
  bits_per_sample : Nat := 16
  sample_rate_hz : Nat := 24000
  channel_count : Nat := 1
deriving DecidableEq, Repr

/-- Does the first list start with the second one (character-wise)? -/
def startsWithChars : List Char → List Char → Bool
  | _, [] => true
  | [], _ :: _ => false
  | c :: cs, p :: ps => c == p && startsWithChars cs ps

/-- Does `pat` occur as a contiguous sublist of the second argument? -/
def containsSub (pat : List Char) : List Char → Bool
  | [] => startsWithChars [] pat
  | c :: t => startsWithChars (c :: t) pat || containsSub pat t

/-- String-level substring test, via the character lists. -/
def sContains (hay pat : String) : Bool := containsSub pat.data hay.data

/-- Split a character list on the semicolon character. -/
def splitOnSemi : List Char → List (List Char)
  | [] => [[]]
  | c :: cs =>
    let rest := splitOnSemi cs
    if c == ';' then [] :: rest
    else
      match rest with
      | [] => [[c]]
      | seg :: segs => (c :: seg) :: segs

/-- Simple whitespace test used by `trimChars`. -/
def isWSChar (c : Char) : Bool := c == ' ' || c == '\t' || c == '\n' || c == '\r'

/-- Drop leading and trailing whitespace from a character list. -/
def trimChars (l : List Char) : List Char :=
  ((l.dropWhile isWSChar).reverse.dropWhile isWSChar).reverse

/-- Parse a non-empty all-digit character list as a natural number;
`none` on the empty list or on any non-digit character. -/
def parseNatChars (l : List Char) : Option Nat :=
  match l with
  | [] => none
  | _ :: _ => l.foldl (fun acc c =>
      acc.bind fun n => if c.isDigit then some (10 * n + (c.toNat - 48)) else none) (some 0)

/-- Modelled from the spec: one step of the MIME parameter parser of §4.1,
which is not present under src/. The segment is trimmed; a segment beginning
with `rate=` (case-insensitive) sets `sample_rate_hz` from its numeric
suffix; a segment beginning with `audio/L` sets `bits_per_sample` from its
suffix; any parse failure is swallowed and the field keeps its value. -/
def parseSeg (acc : AudioFormatParameters) (seg : List Char) : AudioFormatParameters :=
  let t := trimChars seg
  if startsWithChars (t.map Char.toLower) "rate=".data then
    match parseNatChars (t.drop 5) with
    | some n => { acc with sample_rate_hz := n }
    | none => acc
  else if startsWithChars t "audio/L".data then
    match parseNatChars (t.drop 7) with
    | some n => { acc with bits_per_sample := n }
    | none => acc
  else acc

/-- Modelled from the spec: the MIME parameter parser of §4.1 (`parse`),
which is not present under src/. Splits the descriptor on `;`, scans the
segments left to right (last match wins) and never fails; channel count is
fixed at 1 and never derived from the descriptor. -/
def parse (descriptor : String) : AudioFormatParameters :=
  (splitOnSemi descriptor.data).foldl parseSeg {}

/-! ## The PCM-to-WAV encoder -/

/-- Modelled from the spec: the PCM-to-WAV encoder of §4.2 (`encode`),
which is not present under src/. Emits the canonical 44-byte RIFF/WAVE
header (fields in the specified order, little-endian, ASCII tags) followed
by the PCM bytes unchanged; total, with no error path. -/
def encode (pcm : List Nat) (f : AudioFormatParameters) : List Nat :=
  let dataSize := pcm.length
  let blockAlign := f.channel_count * (f.bits_per_sample / 8)
  let byteRate := f.sample_rate_hz * blockAlign
  [82, 73, 70, 70] ++              -- "RIFF"
  le32 (36 + dataSize) ++
  [87, 65, 86, 69] ++              -- "WAVE"
  [102, 109, 116, 32] ++           -- "fmt "
  le32 16 ++
  le16 1 ++
  le16 f.channel_count ++
  le32 f.sample_rate_hz ++
  le32 byteRate ++
  le16 blockAlign ++
  le16 f.bits_per_sample ++
  [100, 97, 116, 97] ++            -- "data"
  le32 dataSize ++
  pcm

/-! ## The Flask application (src/narrador_app.py) -/

/-- The model constant of narrador_app.py line 47. -/
def CURRENT_TTS_MODEL : String := "gemini-2.5-pro-preview-tts"

/-- The model actually used for TTS calls (narrador_app.py line 53). -/
def MODEL_TO_USE_FOR_TTS : String := CURRENT_TTS_MODEL

/-- Python truthiness of an optional string: `None` and the empty string
are falsy, everything else truthy. -/
def pyTruthy : Option String → Bool
  | none => false
  | some s => !s.isEmpty

/-- `d.get(k)` on a Python dict modelled as an association list. -/
def dictGet (d : List (String × String)) (k : String) : Option String :=
  match d.find? (fun p => p.1 == k) with
  | some p => some p.2
  | none => none

/-- A Python exception reaching a `try/except` boundary. -/
inductive PyExc
  | badRequest
  | other (msg : String)
deriving DecidableEq, Repr

/-- Body of an HTTP response: a plain string return, a `jsonify` object
(ordered key/value pairs), or a `send_file` byte payload. -/
inductive RespBody
  | text (s : String)
  | json (pairs : List (String × String))
  | file (bytes : List Nat)
deriving DecidableEq, Repr

/-- An HTTP response: status code, body, and the headers set by the
handler and the framework for this response. -/
structure HttpResponse where
  status : Nat
  body : RespBody
  headers : List (String × String)
deriving DecidableEq, Repr

/-- `jsonify({"error": msg}), status` as the source builds its error
responses. -/
def jsonErrorResp (status : Nat) (msg : String) : HttpResponse :=
  { status := status
    body := .json [("error", msg)]
    headers := [("Content-Type", "application/json")] }

/-- flask_cors (narrador_app.py line 24) decorates every response with the
allow-origin header and exposes the `X-Model-Used` header name; it sets no
header named `X-Model-Used` itself. -/
def corsWrap (r : HttpResponse) : HttpResponse :=
  { r with headers := r.headers ++
      [("Access-Control-Allow-Origin", "*"),
       ("Access-Control-Expose-Headers", "X-Model-Used")] }

/-- The arguments of one `genai.generate_content` TTS call
(narrador_app.py lines 135-149). -/
structure TtsCall where
  model : String
  text : String
  voice : String
deriving DecidableEq, Repr

/-- Outcome of one upstream `genai.generate_content` call: an
`AttributeError`, another exception, a response without `audio.data`, or a
response carrying audio bytes. -/
inductive UpstreamOutcome
  | attrError (msg : String)
  | otherError (msg : String)
  | noAudioData
  | audioData (bytes : List Nat)
deriving DecidableEq, Repr

/-- The TTS call the handler builds from the validated request body:
the fixed configured model plus the `text` and `voice` fields. -/
def ttsCallOf (data : List (String × String)) : TtsCall :=
  { model := MODEL_TO_USE_FOR_TTS
    text := (dictGet data "text").getD ""
    voice := (dictGet data "voice").getD "" }

/-- The body of `generate_audio_endpoint` inside its outer `try`
(narrador_app.py lines 97-181). `api_key` is the `GEMINI_API_KEY`
environment value, `jsonBody` the result of `request.get_json()` (`.error`
when parsing raised; the empty list when it returned a falsy value such as
`None` or `{}`), and `tts n c` the outcome of the n-th upstream call made
with arguments `c`. The inner `try/except` around the upstream call turns
its exceptions into 502 responses; a raising `get_json` propagates to the
boundary. -/
def generate_audio_inner (api_key : Option String)
    (jsonBody : Except PyExc (List (String × String)))
    (tts : Nat → TtsCall → UpstreamOutcome) : Except PyExc HttpResponse :=
  if pyTruthy api_key = false then
    .ok (jsonErrorResp 500 "Configuração do servidor incompleta: Chave da API ausente.")
  else
    match jsonBody with
    | .error e => .error e
    | .ok data =>
      if data.isEmpty then
        .ok (jsonErrorResp 400 "Requisição inválida, corpo JSON ausente.")
      else if pyTruthy (dictGet data "text") = false then
        .ok (jsonErrorResp 400 "O texto não pode estar vazio.")
      else if pyTruthy (dictGet data "voice") = false then
        .ok (jsonErrorResp 400 "O nome da voz não pode estar vazio.")
      else if (MODEL_TO_USE_FOR_TTS == "gemini-2.5-pro-preview-tts"
               || MODEL_TO_USE_FOR_TTS == "gemini-2.5-flash-preview-tts") = false then
        .ok (jsonErrorResp 400 ("Modelo TTS '" ++ MODEL_TO_USE_FOR_TTS ++
          "' não é suportado. Por favor, use 'gemini-2.5-pro-preview-tts' ou 'gemini-2.5-flash-preview-tts'."))
      else
        match tts 0 (ttsCallOf data) with
        | .attrError m =>
          .ok (jsonErrorResp 502 ("Erro de atributo ao usar o modelo '" ++ MODEL_TO_USE_FOR_TTS ++
            "'. Verifique se este modelo suporta TTS e se a chamada está correta. Detalhe: " ++ m))
        | .otherError m =>
          .ok (jsonErrorResp 502 ("Falha na comunicação com a API de TTS do Google: " ++ m))
        | .noAudioData =>
          .ok (jsonErrorResp 500 ("A API do modelo '" ++ MODEL_TO_USE_FOR_TTS ++
            "' não retornou dados de áudio válidos. Verifique a documentação do Google para este modelo."))
        | .audioData bytes =>
          .ok { status := 200
                body := .file bytes
                headers := [("Content-Type", "audio/wav"),
                            ("Content-Disposition", "attachment; filename=narracao.wav")] }

/-- `generate_audio_endpoint` (narrador_app.py lines 89-186): the inner
flow wrapped in the outer `try/except Exception`, which converts any
escaping exception into the generic 500 JSON error, then the CORS
decoration. -/
def generate_audio_endpoint (api_key : Option String)
    (jsonBody : Except PyExc (List (String × String)))
    (tts : Nat → TtsCall → UpstreamOutcome) : HttpResponse :=
  corsWrap <|
    match generate_audio_inner api_key jsonBody tts with
    | .ok r => r
    | .error _ => jsonErrorResp 500 "Ocorreu um erro interno no servidor."

/-- `home` (narrador_app.py lines 72-75): `GET /` returns the liveness
string with status 200. -/
def home : HttpResponse :=
  corsWrap
    { status := 200
      body := .text "Serviço Ator de IA (narrador-python-api) está online."
      headers := [("Content-Type", "text/html; charset=utf-8")] }

/-- `health_check` (narrador_app.py lines 77-87): `GET /health` returns
`jsonify(health_status), 200` where the status dict is `{"status": "ok"}`
with a warning added when the API key is missing or the configured model is
not a known TTS model. -/
def health_check (api_key : Option String) : HttpResponse :=
  let pairs :=
    if pyTruthy api_key = false then
      [("status", "ok"),
       ("warning", "GEMINI_API_KEY não configurada. TTS pode não funcionar.")]
    else if (MODEL_TO_USE_FOR_TTS == "gemini-2.5-pro-preview-tts"
             || MODEL_TO_USE_FOR_TTS == "gemini-2.5-flash-preview-tts") = false then
      [("status", "ok"),
       ("warning", "Modelo TTS '" ++ MODEL_TO_USE_FOR_TTS ++
         "' não é um modelo TTS conhecido. Verifique a configuração.")]
    else
      [("status", "ok")]
  corsWrap
    { status := 200
      body := .json pairs
      headers := [("Content-Type", "application/json")] }

/-! ## Helper lemmas -/

/-- The configured model passes the source's known-TTS-model membership test. -/
theorem model_check_true :
    (MODEL_TO_USE_FOR_TTS == "gemini-2.5-pro-preview-tts"
     || MODEL_TO_USE_FOR_TTS == "gemini-2.5-flash-preview-tts") = true := rfl

/-- Every run of the inner handler ends in a JSON error response, a 200
audio file response, or a propagated exception. -/
theorem inner_cases (api_key : Option String)
    (jsonBody : Except PyExc (List (String × String)))
    (tts : Nat → TtsCall → UpstreamOutcome) :
    (∃ st msg, generate_audio_inner api_key jsonBody tts = .ok (jsonErrorResp st msg))
    ∨ (∃ bytes, generate_audio_inner api_key jsonBody tts =
        .ok { status := 200, body := .file bytes,
              headers := [("Content-Type", "audio/wav"),
                          ("Content-Disposition", "attachment; filename=narracao.wav")] })
    ∨ (∃ e, generate_audio_inner api_key jsonBody tts = .error e) := by
  unfold generate_audio_inner
  repeat' split
  all_goals first
    | exact Or.inl ⟨_, _, rfl⟩
    | exact Or.inr (Or.inl ⟨_, rfl⟩)
    | exact Or.inr (Or.inr ⟨_, rfl⟩)

/-! ## Claims -/

/-- C1: for every PCM buffer `p` and format parameters `f`, `encode p f`
has length `44 + len p`, carries the ASCII tags "RIFF" at bytes 0-3,
"WAVE" at bytes 8-11 and "data" at bytes 36-39, and its bytes from offset
44 on are exactly `p`; `encode` is a total Lean function, hence
deterministic with no error path, also on the empty buffer. -/
theorem C1_encode_layout (p : List Nat) (f : AudioFormatParameters) :
    (encode p f).length = 44 + p.length
    ∧ (encode p f).take 4 = [82, 73, 70, 70]
    ∧ ((encode p f).drop 8).take 4 = [87, 65, 86, 69]
    ∧ ((encode p f).drop 36).take 4 = [100, 97, 116, 97]
    ∧ (encode p f).drop 44 = p := by
  refine ⟨?_, ?_, ?_, ?_, ?_⟩
  · simp [encode, le16, le32]
    omega
  · rfl
  · rfl
  · rfl
  · rfl

/-- C4: the parser is total and each segment either leaves the parameters
unchanged (in particular whenever its numeric suffix fails to parse) or
overwrites exactly one of the two numeric fields; on the descriptor
"garbage;;rate=abc" every segment is skipped and the defaults {16, 24000}
are returned. -/
theorem C4_parse_total_defaults :
    (∀ (acc : AudioFormatParameters) (seg : List Char),
        parseSeg acc seg = acc
        ∨ (∃ n, parseSeg acc seg = { acc with sample_rate_hz := n })
        ∨ (∃ n, parseSeg acc seg = { acc with bits_per_sample := n }))
    ∧ parse "garbage;;rate=abc" =
        { bits_per_sample := 16, sample_rate_hz := 24000, channel_count := 1 } := by
  constructor
  · intro acc seg
    simp only [parseSeg]
    repeat' split
    all_goals first
      | exact Or.inl rfl
      | exact Or.inr (Or.inl ⟨_, rfl⟩)
      | exact Or.inr (Or.inr ⟨_, rfl⟩)
  · decide

/-- C3 counterexample: with the API key configured, `GET /health` does
return status 200, but its body is the JSON object {"status": "ok"},
not the plain-text string "healthy". -/
theorem C3_health_counterexample :
    (health_check (some "k")).status = 200
    ∧ (health_check (some "k")).body ≠ RespBody.text "healthy"
    ∧ (health_check (some "k")).body = RespBody.json [("status", "ok")] := by decide

/-- C3 (amended): every `GET /health` request returns status 200 with a
JSON body whose `status` field is "ok"; when the API key is missing a
`warning` field is added; the body is never the plain text "healthy". -/
theorem C3_health_amended (api_key : Option String) :
    (health_check api_key).status = 200
    ∧ (pyTruthy api_key = true →
        (health_check api_key).body = RespBody.json [("status", "ok")])
    ∧ (pyTruthy api_key = false →
        (health_check api_key).body = RespBody.json
          [("status", "ok"),
           ("warning", "GEMINI_API_KEY não configurada. TTS pode não funcionar.")])
    ∧ (health_check api_key).body ≠ RespBody.text "healthy" := by
  refine ⟨rfl, ?_, ?_, ?_⟩
  · intro h
    simp [health_check, corsWrap, h]
    exact fun hc => absurd rfl hc
  · intro h
    simp [health_check, corsWrap, h]
  · cases h : pyTruthy api_key <;> simp [health_check, corsWrap, h]

/-- C3 amended witness at concrete keys. -/
theorem C3_health_amended_witness :
    (health_check (some "k")).body = RespBody.json [("status", "ok")]
    ∧ (health_check none).body = RespBody.json
        [("status", "ok"),
         ("warning", "GEMINI_API_KEY não configurada. TTS pode não funcionar.")] :=
  ⟨(C3_health_amended (some "k")).2.1 (by decide),
   (C3_health_amended none).2.2.1 (by decide)⟩

/-- C7: when the API credential is absent, every `POST /api/generate-audio`
request (whatever its body and whatever the upstream would do) returns
status 500 with the fixed generic configuration-error JSON message, while
`GET /` and `GET /health` still return status 200. -/
theorem C7_missing_key (jsonBody : Except PyExc (List (String × String)))
    (tts : Nat → TtsCall → UpstreamOutcome) :
    generate_audio_endpoint none jsonBody tts =
      corsWrap (jsonErrorResp 500 "Configuração do servidor incompleta: Chave da API ausente.")
    ∧ home.status = 200
    ∧ (health_check none).status = 200 := by
  exact ⟨rfl, rfl, rfl⟩

/-- C9: any exception escaping the handler body is caught at the request
boundary and converted to the generic 500 JSON error envelope, and every
response of the endpoint is either a 200 audio response or carries a JSON
body of the shape {"error": message}: no exception reaches the transport
layer. -/
theorem C9_error_envelope (api_key : Option String)
    (jsonBody : Except PyExc (List (String × String)))
    (tts : Nat → TtsCall → UpstreamOutcome) :
    (∀ e, generate_audio_inner api_key jsonBody tts = .error e →
        generate_audio_endpoint api_key jsonBody tts =
          corsWrap (jsonErrorResp 500 "Ocorreu um erro interno no servidor."))
    ∧ ((generate_audio_endpoint api_key jsonBody tts).status = 200
       ∨ ∃ msg, (generate_audio_endpoint api_key jsonBody tts).body =
           RespBody.json [("error", msg)]) := by
  constructor
  · intro e h
    simp [generate_audio_endpoint, h]
  · rcases inner_cases api_key jsonBody tts with ⟨st, msg, h⟩ | ⟨bytes, h⟩ | ⟨e, h⟩
    · exact Or.inr ⟨msg, by simp [generate_audio_endpoint, h, corsWrap, jsonErrorResp]⟩
    · exact Or.inl (by simp [generate_audio_endpoint, h, corsWrap])
    · exact Or.inr ⟨"Ocorreu um erro interno no servidor.",
        by simp [generate_audio_endpoint, h, corsWrap, jsonErrorResp]⟩

/-- C9 witness: a raising `get_json` (malformed request body) is converted
to the generic 500 envelope. -/
theorem C9_error_envelope_witness :
    generate_audio_endpoint (some "k") (.error .badRequest) (fun _ _ => .noAudioData) =
      corsWrap (jsonErrorResp 500 "Ocorreu um erro interno no servidor.") :=
  (C9_error_envelope (some "k") (.error .badRequest) (fun _ _ => .noAudioData)).1
    .badRequest rfl

/-- C2: on a fully successful request the endpoint returns status 200 with
Content-Type audio/wav and the upstream audio bytes as the body, but no
response header named `X-Model-Used` is ever set: the only mention of that
name in the source is the CORS expose-headers list, which emits the
`Access-Control-Expose-Headers` header, not `X-Model-Used` itself. -/
theorem C2_success_lacks_model_header :
    (generate_audio_endpoint (some "key") (.ok [("text", "olá"), ("voice", "Kore")])
        (fun _ _ => .audioData [0, 1, 2])).status = 200
    ∧ (generate_audio_endpoint (some "key") (.ok [("text", "olá"), ("voice", "Kore")])
        (fun _ _ => .audioData [0, 1, 2])).body = RespBody.file [0, 1, 2]
    ∧ dictGet (generate_audio_endpoint (some "key") (.ok [("text", "olá"), ("voice", "Kore")])
        (fun _ _ => .audioData [0, 1, 2])).headers "Content-Type" = some "audio/wav"
    ∧ dictGet (generate_audio_endpoint (some "key") (.ok [("text", "olá"), ("voice", "Kore")])
        (fun _ _ => .audioData [0, 1, 2])).headers "X-Model-Used" = none := by decide

/-- C5 counterexample: an upstream response that carries an empty audio
byte string is returned as-is with status 200 and an empty body — not
converted to a 500 error. -/
theorem C5_empty_audio_counterexample :
    (generate_audio_endpoint (some "k") (.ok [("text", "a"), ("voice", "b")])
        (fun _ _ => .audioData [])).status = 200
    ∧ (generate_audio_endpoint (some "k") (.ok [("text", "a"), ("voice", "b")])
        (fun _ _ => .audioData [])).body = RespBody.file [] := by decide

/-- C5 (amended): when the upstream response lacks the `audio.data`
attributes the endpoint returns status 500 with the fixed "no valid audio
data" JSON message; but when the upstream returns an audio byte string,
even an empty one, those bytes are returned with status 200. -/
theorem C5_no_audio_amended (api_key : Option String) (d : List (String × String))
    (tts : Nat → TtsCall → UpstreamOutcome)
    (hk : pyTruthy api_key = true) (hne : d.isEmpty = false)
    (ht : pyTruthy (dictGet d "text") = true)
    (hv : pyTruthy (dictGet d "voice") = true) :
    (tts 0 (ttsCallOf d) = .noAudioData →
        generate_audio_endpoint api_key (.ok d) tts =
          corsWrap (jsonErrorResp 500 ("A API do modelo '" ++ MODEL_TO_USE_FOR_TTS ++
            "' não retornou dados de áudio válidos. Verifique a documentação do Google para este modelo.")))
    ∧ (∀ bytes, tts 0 (ttsCallOf d) = .audioData bytes →
        (generate_audio_endpoint api_key (.ok d) tts).status = 200
        ∧ (generate_audio_endpoint api_key (.ok d) tts).body = RespBody.file bytes) := by
  constructor
  · intro h
    simp [generate_audio_endpoint, generate_audio_inner, hk, hne, ht, hv, model_check_true, h]
  · intro bytes h
    constructor <;>
      simp [generate_audio_endpoint, generate_audio_inner, hk, hne, ht, hv,
        model_check_true, h, corsWrap]

/-- C5 amended witness at a concrete request. -/
theorem C5_no_audio_amended_witness :
    generate_audio_endpoint (some "k") (.ok [("text", "a"), ("voice", "b")])
        (fun _ _ => .noAudioData) =
      corsWrap (jsonErrorResp 500 ("A API do modelo '" ++ MODEL_TO_USE_FOR_TTS ++
        "' não retornou dados de áudio válidos. Verifique a documentação do Google para este modelo.")) :=
  (C5_no_audio_amended (some "k") [("text", "a"), ("voice", "b")] (fun _ _ => .noAudioData)
      (by decide) (by decide) (by decide) (by decide)).1 rfl

/-- C6 counterexample: the empty JSON object lacks a non-empty `text` and a
non-empty `voice`, yet the response — status 400 — carries the generic
"JSON body missing" message, which names neither field. -/
theorem C6_empty_body_counterexample :
    (generate_audio_endpoint (some "k") (.ok []) (fun _ _ => .audioData [7])).status = 400
    ∧ (generate_audio_endpoint (some "k") (.ok []) (fun _ _ => .audioData [7])).body =
        RespBody.json [("error", "Requisição inválida, corpo JSON ausente.")]
    ∧ sContains "Requisição inválida, corpo JSON ausente." "text" = false
    ∧ sContains "Requisição inválida, corpo JSON ausente." "texto" = false
    ∧ sContains "Requisição inválida, corpo JSON ausente." "voice" = false
    ∧ sContains "Requisição inválida, corpo JSON ausente." "voz" = false := by decide

/-- C6 (amended): for every request whose JSON body is a non-empty object,
a missing or empty `text` field yields status 400 with the message naming
the text field, and (text present) a missing or empty `voice` field yields
status 400 with the message naming the voice field; a falsy body (absent
JSON or the empty object) instead yields 400 with a generic body-missing
message. -/
theorem C6_validation_amended (api_key : Option String) (d : List (String × String))
    (tts : Nat → TtsCall → UpstreamOutcome)
    (hk : pyTruthy api_key = true) (hne : d.isEmpty = false) :
    (pyTruthy (dictGet d "text") = false →
        generate_audio_endpoint api_key (.ok d) tts =
          corsWrap (jsonErrorResp 400 "O texto não pode estar vazio."))
    ∧ (pyTruthy (dictGet d "text") = true → pyTruthy (dictGet d "voice") = false →
        generate_audio_endpoint api_key (.ok d) tts =
          corsWrap (jsonErrorResp 400 "O nome da voz não pode estar vazio."))
    ∧ sContains "O texto não pode estar vazio." "texto" = true
    ∧ sContains "O nome da voz não pode estar vazio." "voz" = true := by
  refine ⟨?_, ?_, by decide, by decide⟩
  · intro ht
    simp [generate_audio_endpoint, generate_audio_inner, hk, hne, ht]
  · intro ht hv
    simp [generate_audio_endpoint, generate_audio_inner, hk, hne, ht, hv]

/-- C6 amended witness at concrete requests missing each field. -/
theorem C6_validation_amended_witness :
    generate_audio_endpoint (some "k") (.ok [("voice", "v")]) (fun _ _ => .audioData [7]) =
      corsWrap (jsonErrorResp 400 "O texto não pode estar vazio.")
    ∧ generate_audio_endpoint (some "k") (.ok [("text", "hi")]) (fun _ _ => .audioData [7]) =
        corsWrap (jsonErrorResp 400 "O nome da voz não pode estar vazio.") :=
  ⟨(C6_validation_amended (some "k") [("voice", "v")] (fun _ _ => .audioData [7])
      (by decide) (by decide)).1 (by decide),
   (C6_validation_amended (some "k") [("text", "hi")] (fun _ _ => .audioData [7])
      (by decide) (by decide)).2.1 (by decide) (by decide)⟩

/-- C8: when the single upstream call raises (an `AttributeError` or any
other exception with text `m`), the endpoint answers with status 502 — one
of the statuses the claim allows — and a JSON error message that ends in
the upstream error text `m`; and the response depends only on the first
upstream call, so no retry is ever attempted. -/
theorem C8_upstream_error (api_key : Option String) (d : List (String × String))
    (tts : Nat → TtsCall → UpstreamOutcome) (m : String)
    (hk : pyTruthy api_key = true) (hne : d.isEmpty = false)
    (ht : pyTruthy (dictGet d "text") = true)
    (hv : pyTruthy (dictGet d "voice") = true) :
    ((tts 0 (ttsCallOf d) = .attrError m ∨ tts 0 (ttsCallOf d) = .otherError m) →
        (generate_audio_endpoint api_key (.ok d) tts).status = 502
        ∧ ∃ pre, (generate_audio_endpoint api_key (.ok d) tts).body =
            RespBody.json [("error", pre ++ m)])
    ∧ (∀ tts₂ : Nat → TtsCall → UpstreamOutcome, tts 0 = tts₂ 0 →
        generate_audio_endpoint api_key (.ok d) tts =
          generate_audio_endpoint api_key (.ok d) tts₂) := by
  constructor
  · rintro (h | h)
    · exact ⟨by simp [generate_audio_endpoint, generate_audio_inner, hk, hne, ht, hv,
          model_check_true, h, corsWrap, jsonErrorResp],
        ⟨"Erro de atributo ao usar o modelo '" ++ MODEL_TO_USE_FOR_TTS ++
          "'. Verifique se este modelo suporta TTS e se a chamada está correta. Detalhe: ",
          by simp [generate_audio_endpoint, generate_audio_inner, hk, hne, ht, hv,
            model_check_true, h, corsWrap, jsonErrorResp]⟩⟩
    · exact ⟨by simp [generate_audio_endpoint, generate_audio_inner, hk, hne, ht, hv,
          model_check_true, h, corsWrap, jsonErrorResp],
        ⟨"Falha na comunicação com a API de TTS do Google: ",
          by simp [generate_audio_endpoint, generate_audio_inner, hk, hne, ht, hv,
            model_check_true, h, corsWrap, jsonErrorResp]⟩⟩
  · intro tts₂ h12
    unfold generate_audio_endpoint generate_audio_inner
    rw [h12]

/-- C8 witness at a concrete failing upstream call. -/
theorem C8_upstream_error_witness :
    (generate_audio_endpoint (some "k") (.ok [("text", "a"), ("voice", "b")])
        (fun _ _ => .otherError "boom")).status = 502 :=
  ((C8_upstream_error (some "k") [("text", "a"), ("voice", "b")]
      (fun _ _ => .otherError "boom") "boom"
      (by decide) (by decide) (by decide) (by decide)).1 (Or.inr rfl)).1

/-- C10 counterexample: the empty JSON body and the body holding only a
`model` field differ only in the optional `model` field, yet the handler
answers them with different responses (both 400, but with different error
messages), because Python's truthiness test on the body distinguishes the
empty dict from the non-empty one. -/
theorem C10_model_field_counterexample :
    generate_audio_endpoint (some "k") (.ok []) (fun _ _ => .audioData [7]) ≠
      generate_audio_endpoint (some "k")
        (.ok [("model", "gemini-2.5-flash-preview-tts")])
        (fun _ _ => .audioData [7]) := by decide

/-- C10 (amended): the handler never reads the `model` field — two bodies
agreeing on emptiness and on their `text` and `voice` fields get identical
responses — and the upstream is only ever consulted on calls whose model
argument is the fixed constant 'gemini-2.5-pro-preview-tts'; the lone
exception to "identical behaviour" is a body that is empty versus one made
non-empty by the `model` field alone, which flips the body-truthiness
check. -/
theorem C10_model_field_amended :
    (∀ (api_key : Option String) (tts : Nat → TtsCall → UpstreamOutcome)
        (d₁ d₂ : List (String × String)),
        d₁.isEmpty = d₂.isEmpty →
        dictGet d₁ "text" = dictGet d₂ "text" →
        dictGet d₁ "voice" = dictGet d₂ "voice" →
        generate_audio_endpoint api_key (.ok d₁) tts =
          generate_audio_endpoint api_key (.ok d₂) tts)
    ∧ (∀ (api_key : Option String) (jsonBody : Except PyExc (List (String × String)))
        (tts₁ tts₂ : Nat → TtsCall → UpstreamOutcome),
        (∀ n c, c.model = "gemini-2.5-pro-preview-tts" → tts₁ n c = tts₂ n c) →
        generate_audio_endpoint api_key jsonBody tts₁ =
          generate_audio_endpoint api_key jsonBody tts₂)
    ∧ MODEL_TO_USE_FOR_TTS = "gemini-2.5-pro-preview-tts" := by
  refine ⟨?_, ?_, rfl⟩
  · intro api_key tts d₁ d₂ he ht hv
    have hc : ttsCallOf d₁ = ttsCallOf d₂ := by simp [ttsCallOf, ht, hv]
    simp only [generate_audio_endpoint, generate_audio_inner]
    rw [he, ht, hv, hc]
  · intro api_key jsonBody tts₁ tts₂ h
    cases jsonBody with
    | error e => rfl
    | ok data =>
      simp only [generate_audio_endpoint, generate_audio_inner]
      rw [h 0 (ttsCallOf data) rfl]

/-- C10 amended witness: adding a model field to a non-empty body leaves
the response unchanged. -/
theorem C10_model_field_amended_witness :
    generate_audio_endpoint (some "k") (.ok [("text", "hi"), ("voice", "v")])
        (fun _ _ => .audioData [1]) =
      generate_audio_endpoint (some "k")
        (.ok [("text", "hi"), ("voice", "v"), ("model", "gemini-2.5-flash-preview-tts")])
        (fun _ _ => .audioData [1]) :=
  C10_model_field_amended.1 (some "k") (fun _ _ => .audioData [1])
    [("text", "hi"), ("voice", "v")]
    [("text", "hi"), ("voice", "v"), ("model", "gemini-2.5-flash-preview-tts")]
    (by decide) (by decide) (by decide)

/-- The specification's first parser test vector. -/
theorem parse_vector_L16 :
    parse "audio/L16;rate=24000" =
      { bits_per_sample := 16, sample_rate_hz := 24000, channel_count := 1 } := by decide

/-- The specification's order-independence parser test vector. -/
theorem parse_vector_order :
    parse "rate=48000;audio/L24" =
      { bits_per_sample := 24, sample_rate_hz := 48000, channel_count := 1 } := by decide

/-- The encoder on the empty buffer yields exactly the 44-byte header. -/
theorem encode_empty_length : (encode [] {}).length = 44 := by decide
